import Mathlib

/-!
Verification of the backtest repository (a Streamlit UI over the vectorbt
library) against its natural-language specification.

The embedding models the per-repository glue logic:
  - strats.py: the STRATEGIES table, the dispatcher get_strategy_signals and
    the four signal functions (sma_strategy, ema_strategy, rsi_strategy,
    bollinger_bands_strategy);
  - trading.py and tickers.py: the static configuration data;
  - app.py: the sidebar parameter collection (strategy_params), the signal
    step of a backtest run and the Portfolio.from_signals call.

Third-party library behavior (vectorbt indicator math, the portfolio
simulation) is not code of this repository: it is modelled abstractly, as a
record of uninterpreted functions (VBT) and an uninterpreted portfolio
constructor passed as a parameter.  Price series are lists of rationals,
boolean signal series are lists of booleans.  Numeric UI inputs are modelled
as rationals (the Python code uses machine floats for the size and fee
divisions; the claims under verification concern which arguments are wired
where, not float rounding).
-/

namespace Backtest

/-- Abstract interface to the vectorbt calls made by strats.py.
MAI, RSII, BBI stand for the (opaque) indicator objects returned by
MA.run, RSI.run and BBANDS.run.  The fields are exactly the library
entry points the four strategy functions use:
MA.run(data, window, ewm), MA.ma_crossed_above / ma_crossed_below,
RSI.run(data, window), RSI.rsi_crossed_above / rsi_crossed_below,
BBANDS.run(data, window) with its upper / middle / lower series, and the
pandas comparisons data > series and data < series. -/
structure VBT (MAI RSII BBI : Type) where
  MA_run : List ℚ → Int → Bool → MAI
  ma_crossed_above : MAI → MAI → List Bool
  ma_crossed_below : MAI → MAI → List Bool
  RSI_run : List ℚ → Int → RSII
  rsi_crossed_above : RSII → Int → List Bool
  rsi_crossed_below : RSII → Int → List Bool
  BBANDS_run : List ℚ → Int → BBI
  bb_upper : BBI → List ℚ
  bb_middle : BBI → List ℚ
  bb_lower : BBI → List ℚ
  serGt : List ℚ → List ℚ → List Bool
  serLt : List ℚ → List ℚ → List Bool

/-- Python exceptions raised by the embedded code: the explicit
ValueError of get_strategy_signals, and the TypeError the interpreter
raises when a keyword argument does not match a parameter name. -/
inductive PyError
  | valueError (msg : String)
  | typeError
deriving DecidableEq, Repr

/-- The keyword-argument dictionary passed through get_strategy_signals
(Python kwargs).  The fields are the six parameter names the repository
ever places in a kwargs dictionary (app.py, strategy_params); a field is
some v when the key is present with value v, none when absent. -/
structure Kwargs where
  fast_window : Option Int
  slow_window : Option Int
  rsi_window : Option Int
  overbought : Option Int
  oversold : Option Int
  bb_window : Option Int
deriving DecidableEq, Repr

/-- The empty kwargs dictionary. -/
def Kwargs.empty : Kwargs := ⟨none, none, none, none, none, none⟩

variable {MAI RSII BBI : Type}

/-- strats.py, sma_strategy: fast = MA.run(data, fast_window),
slow = MA.run(data, slow_window); long mode pairs crossed_above with
crossed_below, short mode swaps them. -/
def sma_strategy (lib : VBT MAI RSII BBI) (data : List ℚ)
    (fast_window slow_window : Int) (short_mode : Bool) :
    List Bool × List Bool :=
  let fast := lib.MA_run data fast_window false
  let slow := lib.MA_run data slow_window false
  if short_mode then
    (lib.ma_crossed_below fast slow, lib.ma_crossed_above fast slow)
  else
    (lib.ma_crossed_above fast slow, lib.ma_crossed_below fast slow)

/-- strats.py, ema_strategy: same as sma_strategy but MA.run is called
with ewm=True. -/
def ema_strategy (lib : VBT MAI RSII BBI) (data : List ℚ)
    (fast_window slow_window : Int) (short_mode : Bool) :
    List Bool × List Bool :=
  let fast := lib.MA_run data fast_window true
  let slow := lib.MA_run data slow_window true
  if short_mode then
    (lib.ma_crossed_below fast slow, lib.ma_crossed_above fast slow)
  else
    (lib.ma_crossed_above fast slow, lib.ma_crossed_below fast slow)

/-- strats.py, rsi_strategy: rsi = RSI.run(data, rsi_window); long mode
enters on rsi_crossed_above(oversold) and exits on
rsi_crossed_below(overbought); short mode enters on
rsi_crossed_above(overbought) and exits on rsi_crossed_below(oversold). -/
def rsi_strategy (lib : VBT MAI RSII BBI) (data : List ℚ)
    (rsi_window overbought oversold : Int) (short_mode : Bool) :
    List Bool × List Bool :=
  let rsi := lib.RSI_run data rsi_window
  if short_mode then
    (lib.rsi_crossed_above rsi overbought, lib.rsi_crossed_below rsi oversold)
  else
    (lib.rsi_crossed_above rsi oversold, lib.rsi_crossed_below rsi overbought)

/-- strats.py, bollinger_bands_strategy: bb = BBANDS.run(data, bb_window);
long mode enters on data < bb.lower and exits on data > bb.middle; short
mode enters on data > bb.upper and exits on data < bb.middle. -/
def bollinger_bands_strategy (lib : VBT MAI RSII BBI) (data : List ℚ)
    (bb_window : Int) (short_mode : Bool) :
    List Bool × List Bool :=
  let bb := lib.BBANDS_run data bb_window
  if short_mode then
    (lib.serGt data (lib.bb_upper bb), lib.serLt data (lib.bb_middle bb))
  else
    (lib.serLt data (lib.bb_lower bb), lib.serGt data (lib.bb_middle bb))

/-- Python call semantics of sma_strategy(data, short_mode=short_mode,
**kwargs): a kwargs key that is not a parameter of sma_strategy raises
TypeError; fast_window and slow_window default to 5 and 20 when absent
(the defaults in the def line of sma_strategy). -/
def sma_call (lib : VBT MAI RSII BBI) (data : List ℚ) (short_mode : Bool)
    (kw : Kwargs) : Except PyError (List Bool × List Bool) :=
  if kw.rsi_window.isSome || kw.overbought.isSome || kw.oversold.isSome
      || kw.bb_window.isSome then
    .error .typeError
  else
    .ok (sma_strategy lib data (kw.fast_window.getD 5) (kw.slow_window.getD 20)
      short_mode)

/-- Python call semantics of ema_strategy(data, short_mode=short_mode,
**kwargs): defaults fast_window=9, slow_window=21. -/
def ema_call (lib : VBT MAI RSII BBI) (data : List ℚ) (short_mode : Bool)
    (kw : Kwargs) : Except PyError (List Bool × List Bool) :=
  if kw.rsi_window.isSome || kw.overbought.isSome || kw.oversold.isSome
      || kw.bb_window.isSome then
    .error .typeError
  else
    .ok (ema_strategy lib data (kw.fast_window.getD 9) (kw.slow_window.getD 21)
      short_mode)

/-- Python call semantics of rsi_strategy(data, short_mode=short_mode,
**kwargs): defaults rsi_window=5, overbought=80, oversold=20. -/
def rsi_call (lib : VBT MAI RSII BBI) (data : List ℚ) (short_mode : Bool)
    (kw : Kwargs) : Except PyError (List Bool × List Bool) :=
  if kw.fast_window.isSome || kw.slow_window.isSome || kw.bb_window.isSome then
    .error .typeError
  else
    .ok (rsi_strategy lib data (kw.rsi_window.getD 5) (kw.overbought.getD 80)
      (kw.oversold.getD 20) short_mode)

/-- Python call semantics of bollinger_bands_strategy(data,
short_mode=short_mode, **kwargs): default bb_window=10. -/
def bollinger_bands_call (lib : VBT MAI RSII BBI) (data : List ℚ)
    (short_mode : Bool) (kw : Kwargs) : Except PyError (List Bool × List Bool) :=
  if kw.fast_window.isSome || kw.slow_window.isSome || kw.rsi_window.isSome
      || kw.overbought.isSome || kw.oversold.isSome then
    .error .typeError
  else
    .ok (bollinger_bands_strategy lib data (kw.bb_window.getD 10) short_mode)

/-- The four function values of the strategy_functions dictionary inside
get_strategy_signals. -/
inductive StratFun
  | sma
  | ema
  | rsi
  | bb
deriving DecidableEq, Repr

/-- strats.py, the strategy_functions dictionary literal inside
get_strategy_signals, mapping each name to its function value. -/
def strategy_functions : List (String × StratFun) :=
  [("SMA (Intraday)", .sma),
   ("EMA (Intraday)", .ema),
   ("RSI (Intraday)", .rsi),
   ("Bollinger Bands (Intraday)", .bb)]

/-- Calling the looked-up function value:
strategy_func(data, short_mode=short_mode, **kwargs). -/
def apply_strategy (f : StratFun) (lib : VBT MAI RSII BBI) (data : List ℚ)
    (short_mode : Bool) (kw : Kwargs) : Except PyError (List Bool × List Bool) :=
  match f with
  | .sma => sma_call lib data short_mode kw
  | .ema => ema_call lib data short_mode kw
  | .rsi => rsi_call lib data short_mode kw
  | .bb => bollinger_bands_call lib data short_mode kw

/-- strats.py, get_strategy_signals: looks strategy_name up in
strategy_functions, raises ValueError when absent, otherwise calls the
function with the data, short_mode and the forwarded kwargs. -/
def get_strategy_signals (lib : VBT MAI RSII BBI) (data : List ℚ)
    (strategy_name : String) (short_mode : Bool) (kw : Kwargs) :
    Except PyError (List Bool × List Bool) :=
  match strategy_functions.lookup strategy_name with
  | none => .error (.valueError ("Unknown strategy: " ++ strategy_name))
  | some f => apply_strategy f lib data short_mode kw

/-- strats.py, the STRATEGIES dictionary: strategy label to the name of
its strategy function. -/
def STRATEGIES : List (String × String) :=
  [("SMA (Intraday)", "sma_strategy"),
   ("EMA (Intraday)", "ema_strategy"),
   ("RSI (Intraday)", "rsi_strategy"),
   ("Bollinger Bands (Intraday)", "bollinger_bands_strategy")]

/-- trading.py, TRADING_STYLES: trading style label to data interval. -/
def TRADING_STYLES : List (String × String) :=
  [("Intra (1m) (7 days max)", "1m"),
   ("Swing (5m) (60 days max)", "5m"),
   ("Position (1h) (60 days max)", "1h"),
   ("Investing (1d) (10 year max)", "1d")]

/-- trading.py, DEFAULT_VALUES: per trading style, the dictionary of
default parameter values. -/
def DEFAULT_VALUES : List (String × List (String × Int)) :=
  [("Intra (1m) (7 days max)",
    [("equity", 100000), ("size", 100), ("fast_sma", 5), ("slow_sma", 20),
     ("fast_ema", 9), ("slow_ema", 21), ("rsi_window", 5), ("overbought", 80),
     ("oversold", 20), ("bb_window", 10)]),
   ("Swing (5m) (60 days max)",
    [("equity", 100000), ("size", 100), ("fast_sma", 10), ("slow_sma", 50),
     ("fast_ema", 12), ("slow_ema", 26), ("rsi_window", 14), ("overbought", 70),
     ("oversold", 30), ("bb_window", 20)]),
   ("Position (1h) (60 days max)",
    [("equity", 100000), ("size", 100), ("fast_sma", 20), ("slow_sma", 100),
     ("fast_ema", 20), ("slow_ema", 50), ("rsi_window", 21), ("overbought", 65),
     ("oversold", 35), ("bb_window", 30)]),
   ("Investing (1d) (10 year max)",
    [("equity", 100000), ("size", 100), ("fast_sma", 50), ("slow_sma", 200),
     ("fast_ema", 50), ("slow_ema", 200), ("rsi_window", 30), ("overbought", 60),
     ("oversold", 40), ("bb_window", 50)])]

/-- tickers.py, TICKERS: the constant ticker list (crypto, stocks,
futures). -/
def TICKERS : List String :=
  ["BTC-USD", "ETH-USD", "SOL-USD",
   "AAPL", "AMZN", "GOOGL", "MSFT", "NVDA", "TSLA",
   "CL=F", "ES=F", "GC=F"]

/-- The ten per-style default parameter names of trading.py that the
sidebar code of app.py references (lines 64-79): equity and size always,
fast_sma and slow_sma in the SMA and EMA branch, rsi_window, overbought and
oversold in the RSI branch, bb_window in the Bollinger Bands branch.
fast_ema and slow_ema appear in the data but in no branch. -/
def default_param_names : List String :=
  ["equity", "size", "fast_sma", "slow_sma", "fast_ema", "slow_ema",
   "rsi_window", "overbought", "oversold", "bb_window"]

/-- app.py line 67: the options of the Strategy selectbox,
list(STRATEGIES.keys()). -/
def strategy_select_options : List String := STRATEGIES.map Prod.fst

/-- app.py lines 70-79, the dynamic strategy input fields: starts from the
empty dictionary; when selected_label is in ["SMA", "EMA"] the fast and
slow window inputs are collected, when it equals "RSI" the RSI inputs,
when it equals "Bollinger Bands" the Bollinger window input.  The fw, sw,
rw, ob, os, bw arguments are the values the number_input widgets would
return in the respective branch. -/
def strategy_params (selected_label : String)
    (fw sw rw ob os bw : Int) : Kwargs :=
  if selected_label ∈ ["SMA", "EMA"] then
    ⟨some fw, some sw, none, none, none, none⟩
  else if selected_label = "RSI" then
    ⟨none, none, some rw, some ob, some os, none⟩
  else if selected_label = "Bollinger Bands" then
    ⟨none, none, none, none, none, some bw⟩
  else
    Kwargs.empty

/-- app.py lines 105-106: short_mode = (direction == "shortonly") and the
signal step of a backtest run, get_strategy_signals(data, selected_label,
short_mode=short_mode, **strategy_params). -/
def backtest_signals (lib : VBT MAI RSII BBI) (data : List ℚ)
    (selected_label direction : String) (fw sw rw ob os bw : Int) :
    Except PyError (List Bool × List Bool) :=
  get_strategy_signals lib data selected_label (direction == "shortonly")
    (strategy_params selected_label fw sw rw ob os bw)

/-- The full argument list of the bt.Portfolio.from_signals call in app.py
lines 108-112, field per keyword. -/
structure FromSignalsArgs where
  data : List ℚ
  entries : List Bool
  exits : List Bool
  direction : String
  size : ℚ
  size_type : String
  fees : ℚ
  init_cash : ℚ
  freq : String
  min_size : ℚ
  size_granularity : ℚ

/-- The portfolio object returned by Portfolio.from_signals, reduced to
the four accessors app.py reads: value(), drawdown(), stats() and
trades.records_readable.  StatsT and TradesT are opaque. -/
structure Portfolio (StatsT TradesT : Type) where
  value : List ℚ
  drawdown : List ℚ
  stats : StatsT
  trades_records : TradesT

/-- The outputs app.py derives from the portfolio: the equity curve
(portfolio.value()), the drawdown curve in percent
(portfolio.drawdown() * 100), the statistics table (portfolio.stats())
and the trade records (portfolio.trades.records_readable; the UI further
rounds them and drops the first two columns for display). -/
structure BacktestOutputs (StatsT TradesT : Type) where
  equity_curve : List ℚ
  drawdown_pct : List ℚ
  stats : StatsT
  trades : TradesT

/-- app.py lines 102-144, the backtest branch after a successful data
fetch: computes the signals, builds the portfolio with the single
Portfolio.from_signals call (size = float(size)/100 with
size_type="percent", fees = fees/100, init_cash = equity, freq = interval,
min_size = 1, size_granularity = 1) and reads every output off the
returned portfolio.  pf is the opaque Portfolio.from_signals of the
library. -/
def run_backtest {StatsT TradesT : Type} (lib : VBT MAI RSII BBI)
    (pf : FromSignalsArgs → Portfolio StatsT TradesT) (data : List ℚ)
    (selected_label direction : String) (equity size fees : ℚ)
    (interval : String) (fw sw rw ob os bw : Int) :
    Except PyError (BacktestOutputs StatsT TradesT) :=
  match backtest_signals lib data selected_label direction fw sw rw ob os bw with
  | .error e => .error e
  | .ok (entries, exits) =>
    let portfolio := pf
      { data := data, entries := entries, exits := exits,
        direction := direction, size := size / 100, size_type := "percent",
        fees := fees / 100, init_cash := equity, freq := interval,
        min_size := 1, size_granularity := 1 }
    .ok { equity_curve := portfolio.value,
          drawdown_pct := portfolio.drawdown.map (fun x => x * 100),
          stats := portfolio.stats,
          trades := portfolio.trades_records }

/-- A concrete instantiation of the abstract vectorbt interface, used to
evaluate the embedded glue code on concrete inputs. -/
def trivialVBT : VBT Unit Unit Unit :=
  { MA_run := fun _ _ _ => (),
    ma_crossed_above := fun _ _ => [true],
    ma_crossed_below := fun _ _ => [false],
    RSI_run := fun _ _ => (),
    rsi_crossed_above := fun _ _ => [true],
    rsi_crossed_below := fun _ _ => [false],
    BBANDS_run := fun _ _ => (),
    bb_upper := fun _ => [],
    bb_middle := fun _ => [],
    bb_lower := fun _ => [],
    serGt := fun _ _ => [true],
    serLt := fun _ _ => [false] }

/-- A concrete constant portfolio constructor, used to evaluate
run_backtest on concrete inputs. -/
def constPF : FromSignalsArgs → Portfolio Unit Unit :=
  fun _ => { value := [1], drawdown := [0], stats := (), trades_records := () }

/-- C7: the set of backtests the UI offers is exactly the four
technical-indicator strategies: STRATEGIES is exactly the four entries
SMA, EMA, RSI and Bollinger Bands (each mapped to the name of its signal
function), and the Strategy selectbox is populated from its keys. -/
theorem claim_C7 :
    STRATEGIES =
      [("SMA (Intraday)", "sma_strategy"),
       ("EMA (Intraday)", "ema_strategy"),
       ("RSI (Intraday)", "rsi_strategy"),
       ("Bollinger Bands (Intraday)", "bollinger_bands_strategy")] ∧
    STRATEGIES.length = 4 ∧
    strategy_select_options = STRATEGIES.map Prod.fst := by
  refine ⟨rfl, rfl, rfl⟩

/-- C8: the configuration is static data: TICKERS is a constant list of
ticker strings covering crypto, stocks and futures; TRADING_STYLES maps
each of four trading-style names to an interval string; DEFAULT_VALUES
has, for every key of TRADING_STYLES, an entry providing a value for
every one of the ten default parameter names (equity, size, fast_sma,
slow_sma, fast_ema, slow_ema, rsi_window, overbought, oversold,
bb_window). -/
theorem claim_C8 :
    TICKERS =
      ["BTC-USD", "ETH-USD", "SOL-USD",
       "AAPL", "AMZN", "GOOGL", "MSFT", "NVDA", "TSLA",
       "CL=F", "ES=F", "GC=F"] ∧
    "BTC-USD" ∈ TICKERS ∧ "AAPL" ∈ TICKERS ∧ "CL=F" ∈ TICKERS ∧
    TRADING_STYLES.map Prod.fst =
      ["Intra (1m) (7 days max)", "Swing (5m) (60 days max)",
       "Position (1h) (60 days max)", "Investing (1d) (10 year max)"] ∧
    TRADING_STYLES.map Prod.snd = ["1m", "5m", "1h", "1d"] ∧
    TRADING_STYLES.length = 4 ∧
    ((TRADING_STYLES.map Prod.fst).all fun style =>
      match DEFAULT_VALUES.lookup style with
      | some defaults => default_param_names.all fun n => (defaults.lookup n).isSome
      | none => false) = true := by
  exact ⟨rfl, by decide, by decide, by decide, rfl, rfl, rfl, by decide⟩

/-- C10: for the SMA and EMA strategies, short mode is exactly the swap
of long mode: with short_mode=True the (entries, exits) pair equals the
(exits, entries) of the pair with short_mode=False. -/
theorem claim_C10 {MAI RSII BBI : Type} (lib : VBT MAI RSII BBI)
    (data : List ℚ) (fast_window slow_window : Int) :
    sma_strategy lib data fast_window slow_window true =
      ((sma_strategy lib data fast_window slow_window false).2,
       (sma_strategy lib data fast_window slow_window false).1) ∧
    ema_strategy lib data fast_window slow_window true =
      ((ema_strategy lib data fast_window slow_window false).2,
       (ema_strategy lib data fast_window slow_window false).1) := by
  exact ⟨rfl, rfl⟩

/-- C6: each of the four strategy functions produces its result purely by
comparing library-computed indicator series with crossed-above,
crossed-below, greater-than or less-than, returning exactly the pair
(entries, exits) of boolean series spelled out here, with no other
signal logic. -/
theorem claim_C6 {MAI RSII BBI : Type} (lib : VBT MAI RSII BBI)
    (data : List ℚ) (m : Bool) :
    (∀ fw sw : Int,
      sma_strategy lib data fw sw m =
        if m then
          (lib.ma_crossed_below (lib.MA_run data fw false) (lib.MA_run data sw false),
           lib.ma_crossed_above (lib.MA_run data fw false) (lib.MA_run data sw false))
        else
          (lib.ma_crossed_above (lib.MA_run data fw false) (lib.MA_run data sw false),
           lib.ma_crossed_below (lib.MA_run data fw false) (lib.MA_run data sw false))) ∧
    (∀ fw sw : Int,
      ema_strategy lib data fw sw m =
        if m then
          (lib.ma_crossed_below (lib.MA_run data fw true) (lib.MA_run data sw true),
           lib.ma_crossed_above (lib.MA_run data fw true) (lib.MA_run data sw true))
        else
          (lib.ma_crossed_above (lib.MA_run data fw true) (lib.MA_run data sw true),
           lib.ma_crossed_below (lib.MA_run data fw true) (lib.MA_run data sw true))) ∧
    (∀ rw ob os : Int,
      rsi_strategy lib data rw ob os m =
        if m then
          (lib.rsi_crossed_above (lib.RSI_run data rw) ob,
           lib.rsi_crossed_below (lib.RSI_run data rw) os)
        else
          (lib.rsi_crossed_above (lib.RSI_run data rw) os,
           lib.rsi_crossed_below (lib.RSI_run data rw) ob)) ∧
    (∀ bw : Int,
      bollinger_bands_strategy lib data bw m =
        if m then
          (lib.serGt data (lib.bb_upper (lib.BBANDS_run data bw)),
           lib.serLt data (lib.bb_middle (lib.BBANDS_run data bw)))
        else
          (lib.serLt data (lib.bb_lower (lib.BBANDS_run data bw)),
           lib.serGt data (lib.bb_middle (lib.BBANDS_run data bw)))) := by
  refine ⟨fun fw sw => ?_, fun fw sw => ?_, fun rw ob os => ?_, fun bw => ?_⟩ <;>
    cases m <;> rfl

/-- C5: each of the four signal functions reaches the library only
through a single indicator computation (MA.run for SMA and EMA, RSI.run
for RSI, BBANDS.run for Bollinger Bands) and the comparison operators on
its result: two libraries agreeing on those fields give each strategy
identical output. -/
theorem claim_C5 {MAI RSII BBI : Type} (lib lib2 : VBT MAI RSII BBI) :
    (lib.MA_run = lib2.MA_run →
     lib.ma_crossed_above = lib2.ma_crossed_above →
     lib.ma_crossed_below = lib2.ma_crossed_below →
     ∀ (data : List ℚ) (fw sw : Int) (m : Bool),
       sma_strategy lib data fw sw m = sma_strategy lib2 data fw sw m ∧
       ema_strategy lib data fw sw m = ema_strategy lib2 data fw sw m) ∧
    (lib.RSI_run = lib2.RSI_run →
     lib.rsi_crossed_above = lib2.rsi_crossed_above →
     lib.rsi_crossed_below = lib2.rsi_crossed_below →
     ∀ (data : List ℚ) (rw ob os : Int) (m : Bool),
       rsi_strategy lib data rw ob os m = rsi_strategy lib2 data rw ob os m) ∧
    (lib.BBANDS_run = lib2.BBANDS_run →
     lib.bb_upper = lib2.bb_upper →
     lib.bb_middle = lib2.bb_middle →
     lib.bb_lower = lib2.bb_lower →
     lib.serGt = lib2.serGt →
     lib.serLt = lib2.serLt →
     ∀ (data : List ℚ) (bw : Int) (m : Bool),
       bollinger_bands_strategy lib data bw m =
         bollinger_bands_strategy lib2 data bw m) := by
  refine ⟨fun h1 h2 h3 data fw sw m => ?_,
          fun h1 h2 h3 data rw ob os m => ?_,
          fun h1 h2 h3 h4 h5 h6 data bw m => ?_⟩
  · constructor <;> simp [sma_strategy, ema_strategy, h1, h2, h3]
  · simp [rsi_strategy, h1, h2, h3]
  · simp [bollinger_bands_strategy, h1, h2, h3, h4, h5, h6]

/-- Witness for C5 at a concrete library: the hypotheses hold with both
libraries taken to be trivialVBT. -/
theorem claim_C5_witness :
    rsi_strategy trivialVBT [1, 2] 5 80 20 false =
      rsi_strategy trivialVBT [1, 2] 5 80 20 false :=
  (claim_C5 trivialVBT trivialVBT).2.1 rfl rfl rfl [1, 2] 5 80 20 false

/-- C1: get_strategy_signals dispatches the strategy name through its
table to exactly one of the four signal functions (the table keys are
pairwise distinct) and returns the result of calling that function,
forwarding short_mode and the whole kwargs dictionary. -/
theorem claim_C1 {MAI RSII BBI : Type} (lib : VBT MAI RSII BBI)
    (data : List ℚ) (m : Bool) (kw : Kwargs) :
    (strategy_functions.map Prod.fst).Nodup ∧
    get_strategy_signals lib data "SMA (Intraday)" m kw = sma_call lib data m kw ∧
    get_strategy_signals lib data "EMA (Intraday)" m kw = ema_call lib data m kw ∧
    get_strategy_signals lib data "RSI (Intraday)" m kw = rsi_call lib data m kw ∧
    get_strategy_signals lib data "Bollinger Bands (Intraday)" m kw =
      bollinger_bands_call lib data m kw :=
  ⟨by decide, rfl, rfl, rfl, rfl⟩

/-- C3: the UI selection is mapped to keyword arguments: the signal step
of a backtest run calls the selected strategy with the kwargs collected
in strategy_params for the selected label and with short_mode equal to
(direction == "shortonly"); and the branch labels of the sidebar collect
exactly their input fields into strategy_params. -/
theorem claim_C3 (MAI RSII BBI : Type) (lib : VBT MAI RSII BBI)
    (data : List ℚ) (direction : String) (fw sw rw ob os bw : Int) :
    (backtest_signals lib data "SMA (Intraday)" direction fw sw rw ob os bw =
      sma_call lib data (direction == "shortonly")
        (strategy_params "SMA (Intraday)" fw sw rw ob os bw)) ∧
    (backtest_signals lib data "EMA (Intraday)" direction fw sw rw ob os bw =
      ema_call lib data (direction == "shortonly")
        (strategy_params "EMA (Intraday)" fw sw rw ob os bw)) ∧
    (backtest_signals lib data "RSI (Intraday)" direction fw sw rw ob os bw =
      rsi_call lib data (direction == "shortonly")
        (strategy_params "RSI (Intraday)" fw sw rw ob os bw)) ∧
    (backtest_signals lib data "Bollinger Bands (Intraday)" direction fw sw rw ob os bw =
      bollinger_bands_call lib data (direction == "shortonly")
        (strategy_params "Bollinger Bands (Intraday)" fw sw rw ob os bw)) ∧
    strategy_params "SMA" fw sw rw ob os bw =
      ⟨some fw, some sw, none, none, none, none⟩ ∧
    strategy_params "EMA" fw sw rw ob os bw =
      ⟨some fw, some sw, none, none, none, none⟩ ∧
    strategy_params "RSI" fw sw rw ob os bw =
      ⟨none, none, some rw, some ob, some os, none⟩ ∧
    strategy_params "Bollinger Bands" fw sw rw ob os bw =
      ⟨none, none, none, none, none, some bw⟩ :=
  ⟨rfl, rfl, rfl, rfl, rfl, rfl, rfl, rfl⟩

/-- C4: every label of the Strategy selectbox ends in " (Intraday)", so
none of the parameter-branch conditions of the sidebar (membership in
["SMA", "EMA"], equality with "RSI", equality with "Bollinger Bands")
holds for it: strategy_params is the empty dictionary for every
selectable label and every input, and every backtest runs the selected
strategy with its hard-coded defaults (SMA 5/20, EMA 9/21, RSI 5/80/20,
Bollinger Bands 10), whatever the input-field values. -/
theorem claim_C4 :
    STRATEGIES.map Prod.fst =
      ["SMA (Intraday)", "EMA (Intraday)", "RSI (Intraday)",
       "Bollinger Bands (Intraday)"] ∧
    ("SMA (Intraday)" = "SMA" ++ " (Intraday)" ∧
     "EMA (Intraday)" = "EMA" ++ " (Intraday)" ∧
     "RSI (Intraday)" = "RSI" ++ " (Intraday)" ∧
     "Bollinger Bands (Intraday)" = "Bollinger Bands" ++ " (Intraday)") ∧
    ((STRATEGIES.map Prod.fst).all fun l =>
      !(["SMA", "EMA"].contains l) && !(l == "RSI")
        && !(l == "Bollinger Bands")) = true ∧
    (∀ fw sw rw ob os bw : Int,
      strategy_params "SMA (Intraday)" fw sw rw ob os bw = Kwargs.empty ∧
      strategy_params "EMA (Intraday)" fw sw rw ob os bw = Kwargs.empty ∧
      strategy_params "RSI (Intraday)" fw sw rw ob os bw = Kwargs.empty ∧
      strategy_params "Bollinger Bands (Intraday)" fw sw rw ob os bw =
        Kwargs.empty) ∧
    (∀ (MAI RSII BBI : Type) (lib : VBT MAI RSII BBI) (data : List ℚ)
        (m : Bool) (fw sw rw ob os bw : Int),
      get_strategy_signals lib data "SMA (Intraday)" m
          (strategy_params "SMA (Intraday)" fw sw rw ob os bw) =
        .ok (sma_strategy lib data 5 20 m) ∧
      get_strategy_signals lib data "EMA (Intraday)" m
          (strategy_params "EMA (Intraday)" fw sw rw ob os bw) =
        .ok (ema_strategy lib data 9 21 m) ∧
      get_strategy_signals lib data "RSI (Intraday)" m
          (strategy_params "RSI (Intraday)" fw sw rw ob os bw) =
        .ok (rsi_strategy lib data 5 80 20 m) ∧
      get_strategy_signals lib data "Bollinger Bands (Intraday)" m
          (strategy_params "Bollinger Bands (Intraday)" fw sw rw ob os bw) =
        .ok (bollinger_bands_strategy lib data 10 m)) :=
  ⟨rfl, by decide, by decide,
   fun fw sw rw ob os bw => ⟨rfl, rfl, rfl, rfl⟩,
   fun MAI RSII BBI lib data m fw sw rw ob os bw => ⟨rfl, rfl, rfl, rfl⟩⟩

/-- Helper: no strategy call ever produces a ValueError; the only error a
call can raise is the TypeError of a mismatched keyword argument. -/
theorem apply_strategy_ne_valueError {MAI RSII BBI : Type} (f : StratFun)
    (lib : VBT MAI RSII BBI) (data : List ℚ) (m : Bool) (kw : Kwargs)
    (msg : String) :
    apply_strategy f lib data m kw ≠ Except.error (PyError.valueError msg) := by
  cases f <;>
    simp only [apply_strategy, sma_call, ema_call, rsi_call,
      bollinger_bands_call] <;>
    split <;> simp

/-- Helper: a successful table lookup turns the dispatcher into the call
of the looked-up function. -/
theorem get_strategy_signals_lookup_some {MAI RSII BBI : Type}
    (lib : VBT MAI RSII BBI) (data : List ℚ) (m : Bool) (kw : Kwargs)
    (name : String) (f : StratFun)
    (h : strategy_functions.lookup name = some f) :
    get_strategy_signals lib data name m kw = apply_strategy f lib data m kw := by
  simp [get_strategy_signals, h]

/-- Helper: the lookup in the dispatch table fails for every name
outside its four keys. -/
theorem strategy_lookup_eq_none (name : String)
    (h : name ∉ strategy_functions.map Prod.fst) :
    strategy_functions.lookup name = none := by
  simp only [strategy_functions, List.map, List.mem_cons, List.not_mem_nil,
    or_false, not_or] at h
  obtain ⟨h1, h2, h3, h4⟩ := h
  simp [strategy_functions, List.lookup, beq_eq_false_iff_ne.mpr h1,
    beq_eq_false_iff_ne.mpr h2, beq_eq_false_iff_ne.mpr h3,
    beq_eq_false_iff_ne.mpr h4]

/-- Counterexample to C9 as stated: on the known key "SMA (Intraday)"
with a kwargs dictionary holding the key bb_window, the call raises
(TypeError, from binding bb_window against the parameters of
sma_strategy), so it is not true that the dispatcher never raises on the
four known keys. -/
theorem claim_C9_counterexample :
    get_strategy_signals trivialVBT [1] "SMA (Intraday)" false
      ⟨none, none, none, none, none, some 3⟩ =
      Except.error PyError.typeError := rfl

/-- C9 (amended): get_strategy_signals raises ValueError if and only if
strategy_name is not one of the four keys of its dispatch table; for the
four known keys, whenever every supplied keyword argument is a parameter
of the selected strategy, it never raises and returns the output of that
strategy (absent parameters taking the hard-coded defaults). -/
theorem claim_C9 {MAI RSII BBI : Type} (lib : VBT MAI RSII BBI)
    (data : List ℚ) (m : Bool) (kw : Kwargs) (name : String) :
    ((∃ msg, get_strategy_signals lib data name m kw =
        Except.error (PyError.valueError msg)) ↔
      name ∉ strategy_functions.map Prod.fst) ∧
    (kw.rsi_window = none → kw.overbought = none → kw.oversold = none →
     kw.bb_window = none →
      get_strategy_signals lib data "SMA (Intraday)" m kw =
        .ok (sma_strategy lib data (kw.fast_window.getD 5)
          (kw.slow_window.getD 20) m) ∧
      get_strategy_signals lib data "EMA (Intraday)" m kw =
        .ok (ema_strategy lib data (kw.fast_window.getD 9)
          (kw.slow_window.getD 21) m)) ∧
    (kw.fast_window = none → kw.slow_window = none → kw.bb_window = none →
      get_strategy_signals lib data "RSI (Intraday)" m kw =
        .ok (rsi_strategy lib data (kw.rsi_window.getD 5)
          (kw.overbought.getD 80) (kw.oversold.getD 20) m)) ∧
    (kw.fast_window = none → kw.slow_window = none → kw.rsi_window = none →
     kw.overbought = none → kw.oversold = none →
      get_strategy_signals lib data "Bollinger Bands (Intraday)" m kw =
        .ok (bollinger_bands_strategy lib data (kw.bb_window.getD 10) m)) := by
  refine ⟨⟨?_, ?_⟩, ?_, ?_, ?_⟩
  · rintro ⟨msg, hmsg⟩ hmem
    simp only [strategy_functions, List.map, List.mem_cons,
      List.not_mem_nil, or_false] at hmem
    rcases hmem with rfl | rfl | rfl | rfl
    · rw [get_strategy_signals_lookup_some lib data m kw "SMA (Intraday)" StratFun.sma rfl]
        at hmsg
      exact apply_strategy_ne_valueError StratFun.sma lib data m kw msg hmsg
    · rw [get_strategy_signals_lookup_some lib data m kw "EMA (Intraday)" StratFun.ema rfl]
        at hmsg
      exact apply_strategy_ne_valueError StratFun.ema lib data m kw msg hmsg
    · rw [get_strategy_signals_lookup_some lib data m kw "RSI (Intraday)" StratFun.rsi rfl]
        at hmsg
      exact apply_strategy_ne_valueError StratFun.rsi lib data m kw msg hmsg
    · rw [get_strategy_signals_lookup_some lib data m kw "Bollinger Bands (Intraday)" StratFun.bb rfl]
        at hmsg
      exact apply_strategy_ne_valueError StratFun.bb lib data m kw msg hmsg
  · intro hnot
    refine ⟨"Unknown strategy: " ++ name, ?_⟩
    simp [get_strategy_signals, strategy_lookup_eq_none name hnot]
  · intro h1 h2 h3 h4
    constructor <;>
      simp [get_strategy_signals, strategy_functions, List.lookup,
        apply_strategy, sma_call, ema_call, h1, h2, h3, h4]
  · intro h1 h2 h3
    simp [get_strategy_signals, strategy_functions, List.lookup,
      apply_strategy, rsi_call, h1, h2, h3]
  · intro h1 h2 h3 h4 h5
    simp [get_strategy_signals, strategy_functions, List.lookup,
      apply_strategy, bollinger_bands_call, h1, h2, h3, h4, h5]

/-- Witness for C9 at concrete inputs: with the empty kwargs dictionary
the RSI key returns the RSI strategy output with its defaults. -/
theorem claim_C9_witness :
    get_strategy_signals trivialVBT [1] "RSI (Intraday)" false Kwargs.empty =
      .ok (rsi_strategy trivialVBT [1] 5 80 20 false) :=
  (claim_C9 trivialVBT [1] false Kwargs.empty "RSI (Intraday)").2.2.1 rfl rfl rfl

/-- C2: when the signal step succeeds, the backtest makes the single
Portfolio.from_signals call with the fetched data, the entry and exit
signals, size equal to the UI size divided by 100 with size_type percent,
fees equal to the UI fee divided by 100, init_cash equal to the UI
equity, freq equal to the interval, min_size 1 and size_granularity 1;
and every output (equity curve, drawdown curve, statistics, trade
records) is read off the returned portfolio object, with no other
portfolio computation (the statement holds for every portfolio
constructor pf). -/
theorem claim_C2 {MAI RSII BBI StatsT TradesT : Type}
    (lib : VBT MAI RSII BBI) (pf : FromSignalsArgs → Portfolio StatsT TradesT)
    (data : List ℚ) (selected_label direction : String)
    (equity size fees : ℚ) (interval : String) (fw sw rw ob os bw : Int)
    (entries exits : List Bool)
    (h : backtest_signals lib data selected_label direction fw sw rw ob os bw =
      .ok (entries, exits)) :
    run_backtest lib pf data selected_label direction equity size fees
        interval fw sw rw ob os bw =
      .ok { equity_curve :=
              (pf { data := data, entries := entries, exits := exits,
                    direction := direction, size := size / 100,
                    size_type := "percent", fees := fees / 100,
                    init_cash := equity, freq := interval, min_size := 1,
                    size_granularity := 1 }).value,
            drawdown_pct :=
              (pf { data := data, entries := entries, exits := exits,
                    direction := direction, size := size / 100,
                    size_type := "percent", fees := fees / 100,
                    init_cash := equity, freq := interval, min_size := 1,
                    size_granularity := 1 }).drawdown.map (fun x => x * 100),
            stats :=
              (pf { data := data, entries := entries, exits := exits,
                    direction := direction, size := size / 100,
                    size_type := "percent", fees := fees / 100,
                    init_cash := equity, freq := interval, min_size := 1,
                    size_granularity := 1 }).stats,
            trades :=
              (pf { data := data, entries := entries, exits := exits,
                    direction := direction, size := size / 100,
                    size_type := "percent", fees := fees / 100,
                    init_cash := equity, freq := interval, min_size := 1,
                    size_granularity := 1 }).trades_records } := by
  unfold run_backtest
  rw [h]

/-- Witness for C2 at concrete inputs: a run with the trivial library and
the constant portfolio constructor produces exactly the outputs of the
constructed portfolio. -/
theorem claim_C2_witness :
    run_backtest trivialVBT constPF [1] "SMA (Intraday)" "longonly"
        100000 100 12 "1m" 0 0 0 0 0 0 =
      .ok { equity_curve := [1], drawdown_pct := [(0 : ℚ) * 100],
            stats := (), trades := () } :=
  claim_C2 trivialVBT constPF [1] "SMA (Intraday)" "longonly"
    100000 100 12 "1m" 0 0 0 0 0 0 [true] [false] rfl

end Backtest
